import Mathlib

/-!
Shallow embedding of the dnsmasq-viewer backend lease parser
(`backend/lease_parser.py`, `backend/exceptions.py`, `backend/validators.py`)
and proofs about its specification.

Python values relevant to the boundary are modelled by `PyVal`; Python
exceptions escaping the functions are modelled by `PyError`, keeping the
exception class (`ValueError` vs `LeaseParseError`) and the message string.
The external libraries `netaddr` (classes `IPAddress` and `EUI`) and `arrow`
(`arrow.get`) are modelled on the textual forms this repository exercises.
String primitives (`str.strip`, `str.split`, digit parsing) are modelled by
structurally recursive functions over the character list so that every
definition evaluates inside the kernel.
-/

/-- A Python value at the call boundary: `None`, a `str`, or a non-string
value (modelled by `int`, the representative the repository tests use). -/
inductive PyVal where
  | none
  | str (s : String)
  | int (n : Int)
deriving DecidableEq, Repr

/-- Python truthiness for the modelled values: `None` is falsy, a string is
truthy iff non-empty, an int is truthy iff non-zero. -/
def PyVal.truthy : PyVal → Bool
  | .none => false
  | .str s => s ≠ ""
  | .int n => n ≠ 0

/-- `isinstance(v, str)` for the modelled values. -/
def PyVal.isStr : PyVal → Bool
  | .str _ => true
  | _ => false

/-- An exception escaping the backend functions: its Python class
(`ValueError`, or the repository class `LeaseParseError` from
`backend/exceptions.py`), together with the message it carries
(`""` for a bare `raise LeaseParseError`). -/
inductive PyError where
  | valueError (msg : String)
  | leaseParseError (msg : String)
deriving DecidableEq, Repr

/-- `isinstance(e, LeaseParseError)`: whether an escaping exception belongs
to the repository error class `LeaseParseError`. -/
def PyError.isLeaseParseClass : PyError → Bool
  | .leaseParseError _ => true
  | .valueError _ => false

/-- Python `str.isspace` on the ASCII whitespace the lease file can carry. -/
def py_isspace (c : Char) : Bool :=
  c = Char.ofNat 32 || c = Char.ofNat 9 || c = Char.ofNat 10 ||
  c = Char.ofNat 13 || c = Char.ofNat 11 || c = Char.ofNat 12

/-- Python `str.strip()`: drop leading and trailing whitespace. -/
def py_strip (s : String) : String :=
  String.mk (((s.data.dropWhile py_isspace).reverse.dropWhile py_isspace).reverse)

/-- Splitting a character list on every occurrence of the delimiter `c`,
keeping empty pieces, as Python `str.split(c)` does. -/
def py_split_aux (c : Char) : List Char → List Char → List String
  | [], acc => [String.mk acc.reverse]
  | x :: xs, acc =>
      if x = c then String.mk acc.reverse :: py_split_aux c xs []
      else py_split_aux c xs (x :: acc)

/-- Python `str.split(c)` for a single-character delimiter. -/
def py_split (c : Char) (s : String) : List String :=
  py_split_aux c s.data []

/-- Base-10 digit-string parsing over a character list: `some` exactly on
non-empty all-digit lists. -/
def digits_to_nat : List Char → Option Nat
  | [] => Option.none
  | l => l.foldl (fun acc c => do pure ((← acc) * 10 + (← if c.isDigit then some (c.toNat - 48) else Option.none))) (some 0)

/-- Python `int(s)`-style base-10 parsing of a string (no sign, no
whitespace), the digit-token form the lease file carries. -/
def py_digits (s : String) : Option Nat :=
  digits_to_nat s.data

/-- A `netaddr.IPAddress` value: the numeric address (version 4 in every
form this repository exercises). -/
structure IPAddr where
  value : Nat
deriving DecidableEq, Repr

/-- A `netaddr.EUI` value: the numeric 48-bit hardware address. -/
structure MacAddr where
  value : Nat
deriving DecidableEq, Repr

/-- An `arrow.Arrow` value as this repository uses it: a UTC instant,
held as Unix epoch seconds. -/
structure ArrowTime where
  epoch : Nat
deriving DecidableEq, Repr

/-- Models the `netaddr.IPAddress(str)` constructor on IPv4 dotted-quad
textual forms, the forms this repository exercises: four `.`-separated
base-10 octets, each at most 255.  `none` models `AddrFormatError`. -/
def IPAddress (s : String) : Option IPAddr :=
  match (py_split (Char.ofNat 46) s).mapM py_digits with
  | some [a, b, c, d] =>
      if a ≤ 255 && b ≤ 255 && c ≤ 255 && d ≤ 255 then
        some ⟨((a * 256 + b) * 256 + c) * 256 + d⟩
      else
        Option.none
  | _ => Option.none

/-- Numeric value of a hex digit character, `none` for a non-hex-digit. -/
def hexDigitVal (c : Char) : Option Nat :=
  if c.isDigit then some (c.toNat - 48)
  else if 97 ≤ c.toNat && c.toNat ≤ 102 then some (c.toNat - 87)
  else if 65 ≤ c.toNat && c.toNat ≤ 70 then some (c.toNat - 55)
  else Option.none

/-- One octet group of a MAC address: one or two hex digits. -/
def macOctet (s : String) : Option Nat :=
  match s.data with
  | [c] => hexDigitVal c
  | [c₁, c₂] => do pure ((← hexDigitVal c₁) * 16 + (← hexDigitVal c₂))
  | _ => Option.none

/-- Models the `netaddr.EUI(str)` constructor on the 48-bit colon- or
hyphen-delimited hex-octet forms this repository exercises: six octet
groups of one or two hex digits.  `none` models `AddrFormatError`. -/
def EUI (s : String) : Option MacAddr :=
  let parts :=
    if s.data.contains (Char.ofNat 58) then py_split (Char.ofNat 58) s
    else py_split (Char.ofNat 45) s
  match parts.mapM macOctet with
  | some [a, b, c, d, e, f] =>
      some ⟨((((a * 256 + b) * 256 + c) * 256 + d) * 256 + e) * 256 + f⟩
  | _ => Option.none

/-- Models `arrow.get(str)` on the form the lease file carries and the
repository tests exercise: a base-10 integer string interpreted as Unix
epoch seconds.  `none` models the `ValueError`/`ParserError` the library
raises on an unparsable token. -/
def arrow_get (s : String) : Option ArrowTime :=
  (py_digits s).map ArrowTime.mk

/-- The `LeaseRecord` value object (`backend/validators.py`): fields in
source order, already-typed values pass its field validators unchanged. -/
structure LeaseRecord where
  ip_address : IPAddr
  mac_address : MacAddr
  lease_expiry_time : ArrowTime
  client_id : String
  hostname : String
deriving DecidableEq, Repr

/-- The message of the `ValueError` Python raises when tuple-unpacking a
list of length `n ≠ 5` into five names. -/
def unpack_message (n : Nat) : String :=
  if n < 5 then
    "not enough values to unpack (expected 5, got " ++ toString n ++ ")"
  else
    "too many values to unpack (expected 5)"

/-- `parse_lease` (`backend/lease_parser.py`).  The guard
`if not lease_line or not isinstance(lease_line, str)` admits exactly the
non-empty strings; tuple unpacking of `lease_line.strip().split(' ')` into
five names raises `ValueError` when the count differs; `IPAddress` then
`EUI` failures are caught together and re-raised as `LeaseParseError`
naming the line; an `arrow.get` failure is re-raised as `LeaseParseError`
about the expiry time; `*` maps to `""` for hostname and client id.
The `print` calls are modelled separately by `parse_lease_stdout`. -/
def parse_lease (lease_line : PyVal) : Except PyError LeaseRecord :=
  match lease_line with
  | .str s =>
    if s = "" then
      .error (.valueError "Must provide a string input")
    else
      match py_split (Char.ofNat 32) (py_strip s) with
      | [expiry_time, mac_address, ip_address, hostname, client_id] =>
        match IPAddress ip_address with
        | Option.none =>
            .error (.leaseParseError ("Unable to parse IP or Mac address in " ++ s))
        | some ip =>
          match EUI mac_address with
          | Option.none =>
              .error (.leaseParseError ("Unable to parse IP or Mac address in " ++ s))
          | some mac =>
            match arrow_get expiry_time with
            | Option.none =>
                .error (.leaseParseError "Unable to parse lease expiry time")
            | some t =>
                .ok { ip_address := ip
                      mac_address := mac
                      lease_expiry_time := t
                      client_id := if client_id = "*" then "" else client_id
                      hostname := if hostname = "*" then "" else hostname }
      | fields => .error (.valueError (unpack_message fields.length))
  | _ => .error (.valueError "Must provide a string input")

/-- The literal scenario line from the specification and the repository
tests. -/
def canonical_line : String :=
  "1535916991 aa:bb:cc:dd:ee:ff 172.16.1.60 android-2bfa2b2619add6eb 01:aa:bb:cc:dd:ee:ff"

/-- A line whose stripped form splits into five tokens is not empty. -/
theorem split5_line_ne_empty (line e m i hn c : String)
    (hsplit : py_split (Char.ofNat 32) (py_strip line) = [e, m, i, hn, c]) :
    line ≠ "" := by
  intro h
  have hlen : (py_split (Char.ofNat 32) (py_strip line)).length = 5 := by
    rw [hsplit]
    rfl
  rw [h] at hlen
  exact absurd hlen (by decide)

/-- Evaluation of `parse_lease` on a five-token line with parsable IP, MAC
and expiry tokens. -/
theorem parse_lease_ok_eq
    (line e m i hn c : String) (ip : IPAddr) (mac : MacAddr) (t : ArrowTime)
    (hsplit : py_split (Char.ofNat 32) (py_strip line) = [e, m, i, hn, c])
    (hip : IPAddress i = some ip) (hmac : EUI m = some mac)
    (ht : arrow_get e = some t) :
    parse_lease (.str line) =
      .ok { ip_address := ip
            mac_address := mac
            lease_expiry_time := t
            client_id := if c = "*" then "" else c
            hostname := if hn = "*" then "" else hn } := by
  have hne := split5_line_ne_empty line e m i hn c hsplit
  simp only [parse_lease, if_neg hne, hsplit, hip, hmac, ht]

/-- Evaluation of `parse_lease` on a five-token line whose IP or MAC token
fails to parse. -/
theorem parse_lease_addr_error_eq
    (line e m i hn c : String)
    (hsplit : py_split (Char.ofNat 32) (py_strip line) = [e, m, i, hn, c])
    (haddr : IPAddress i = Option.none ∨ EUI m = Option.none) :
    parse_lease (.str line) =
      .error (.leaseParseError ("Unable to parse IP or Mac address in " ++ line)) := by
  have hne := split5_line_ne_empty line e m i hn c hsplit
  rcases haddr with hip | hmac
  · simp only [parse_lease, if_neg hne, hsplit, hip]
  · cases hip : IPAddress i with
    | none => simp only [parse_lease, if_neg hne, hsplit, hip]
    | some ip => simp only [parse_lease, if_neg hne, hsplit, hip, hmac]

/-- Evaluation of `parse_lease` on a five-token line with parsable IP and
MAC tokens but an unparsable expiry token. -/
theorem parse_lease_ts_error_eq
    (line e m i hn c : String) (ip : IPAddr) (mac : MacAddr)
    (hsplit : py_split (Char.ofNat 32) (py_strip line) = [e, m, i, hn, c])
    (hip : IPAddress i = some ip) (hmac : EUI m = some mac)
    (ht : arrow_get e = Option.none) :
    parse_lease (.str line) =
      .error (.leaseParseError "Unable to parse lease expiry time") := by
  have hne := split5_line_ne_empty line e m i hn c hsplit
  simp only [parse_lease, if_neg hne, hsplit, hip, hmac, ht]

/-- C1: For every input line of exactly five single-space-separated tokens
(after stripping) whose IP, MAC, and timestamp tokens are valid,
`parse_lease` returns a `LeaseRecord` whose `ip_address`, `mac_address`,
and `lease_expiry_time` equal the parsed tokens and whose `hostname` and
`client_id` equal the corresponding tokens, with a literal `*` token
replaced by the empty string. -/
theorem parse_lease_wellformed
    (line e m i hn c : String) (ip : IPAddr) (mac : MacAddr) (t : ArrowTime)
    (hsplit : py_split (Char.ofNat 32) (py_strip line) = [e, m, i, hn, c])
    (hip : IPAddress i = some ip) (hmac : EUI m = some mac)
    (ht : arrow_get e = some t) :
    parse_lease (.str line) =
      .ok { ip_address := ip
            mac_address := mac
            lease_expiry_time := t
            client_id := if c = "*" then "" else c
            hostname := if hn = "*" then "" else hn } :=
  parse_lease_ok_eq line e m i hn c ip mac t hsplit hip hmac ht

/-- Witness for C1 at the specification's literal scenario. -/
theorem parse_lease_wellformed_witness :
    parse_lease (.str canonical_line) =
      .ok { ip_address := ⟨2886730044⟩
            mac_address := ⟨0xaabbccddeeff⟩
            lease_expiry_time := ⟨1535916991⟩
            client_id := "01:aa:bb:cc:dd:ee:ff"
            hostname := "android-2bfa2b2619add6eb" } := by
  have h := parse_lease_wellformed canonical_line
    "1535916991" "aa:bb:cc:dd:ee:ff" "172.16.1.60"
    "android-2bfa2b2619add6eb" "01:aa:bb:cc:dd:ee:ff"
    ⟨2886730044⟩ ⟨0xaabbccddeeff⟩ ⟨1535916991⟩
    (by decide) (by decide) (by decide) (by decide)
  simpa using h

/-- Whether a computation outcome is an escaping `LeaseParseError`, the
observation a caller makes with `except LeaseParseError`. -/
def raises_lease_parse_error (r : Except PyError LeaseRecord) : Bool :=
  match r with
  | .error e => e.isLeaseParseClass
  | .ok _ => false

/-- The fixed leading text of the address-parse failure message in
`parse_lease`. -/
def address_error_marker : String := "Unable to parse IP or Mac address"

/-- Whether the character list `p` is an initial segment of `s`. -/
def starts_with : List Char → List Char → Bool
  | [], _ => true
  | _ :: _, [] => false
  | p :: ps, c :: cs => p = c && starts_with ps cs

/-- A list starts with itself, whatever follows. -/
theorem starts_with_append (p t : List Char) : starts_with p (p ++ t) = true := by
  induction p with
  | nil => rfl
  | cons c cs ih => simp [starts_with, ih]

/-- The `ParseError.AddressFormat` classification: a `LeaseParseError` whose
message is the address-parse failure message (which names the line). -/
def is_address_format_error : PyError → Bool
  | .leaseParseError m => starts_with address_error_marker.data m.data
  | .valueError _ => false

/-- The `ParseError.Timestamp` classification: a `LeaseParseError` carrying
the expiry-parse failure message. -/
def is_timestamp_error : PyError → Bool
  | .leaseParseError m => m = "Unable to parse lease expiry time"
  | .valueError _ => false

/-- The address-failure message never coincides with the timestamp-failure
message, whatever line it names. -/
theorem addr_msg_ne_ts_msg (line : String) :
    ("Unable to parse IP or Mac address in " ++ line) ≠
      "Unable to parse lease expiry time" := by
  intro h
  have h20 := congrArg (fun s : String => s.data.take 20) h
  simp only [String.data_append] at h20
  rw [List.take_append_of_le_length (by decide)] at h20
  exact absurd h20 (by decide)

/-- C3: For every input that is the empty string, `None`, or not a string,
`parse_lease` fails with the `ValueError` (`InvalidArgument`) precondition
error, which is not of the `LeaseParseError` class. -/
theorem parse_lease_invalid_argument (v : PyVal)
    (h : v = .str "" ∨ v = .none ∨ v.isStr = false) :
    parse_lease v = .error (.valueError "Must provide a string input") ∧
      raises_lease_parse_error (parse_lease v) = false := by
  have hv : parse_lease v = .error (.valueError "Must provide a string input") := by
    rcases h with h | h | h
    · rw [h]
      rfl
    · rw [h]
      rfl
    · cases v with
      | str s => exact absurd h (by simp [PyVal.isStr])
      | none => rfl
      | int n => rfl
  exact ⟨hv, by rw [hv]; rfl⟩

/-- Witness for C3 at the non-string input `123` from the repository
tests. -/
theorem parse_lease_invalid_argument_witness :
    parse_lease (.int 123) = .error (.valueError "Must provide a string input") ∧
      raises_lease_parse_error (parse_lease (.int 123)) = false :=
  parse_lease_invalid_argument (.int 123) (Or.inr (Or.inr (by decide)))

/-- C2 counterexample: at the three-token line `"a b c"`, `parse_lease`
fails with the tuple-unpacking `ValueError`, which is not of the
`LeaseParseError` class — so the field-count failure is not a
`ParseError.FieldCount` distinct from the `InvalidArgument` class. -/
theorem parse_lease_fieldcount_counterexample :
    parse_lease (.str "a b c") =
        .error (.valueError "not enough values to unpack (expected 5, got 3)") ∧
      raises_lease_parse_error (parse_lease (.str "a b c")) = false := by
  constructor
  · rfl
  · rfl

/-- C2 amended: for every non-empty string whose stripped form does not
split on single spaces into exactly five tokens, `parse_lease` fails with
the tuple-unpacking `ValueError` — the same Python exception class as the
`InvalidArgument` precondition error — and not with a `LeaseParseError`. -/
theorem parse_lease_fieldcount_value_error (s : String) (hne : s ≠ "")
    (hlen : (py_split (Char.ofNat 32) (py_strip s)).length ≠ 5) :
    parse_lease (.str s) =
        .error (.valueError (unpack_message (py_split (Char.ofNat 32) (py_strip s)).length)) ∧
      raises_lease_parse_error (parse_lease (.str s)) = false := by
  have hv : parse_lease (.str s) =
      .error (.valueError (unpack_message (py_split (Char.ofNat 32) (py_strip s)).length)) := by
    simp only [parse_lease, if_neg hne]
    split
    · next e m i hn c heq =>
        exact absurd (by rw [heq]; rfl) hlen
    · rfl
  exact ⟨hv, by rw [hv]; rfl⟩

/-- Witness for the amended C2 at the three-token line `"a b c"`. -/
theorem parse_lease_fieldcount_value_error_witness :
    parse_lease (.str "a b c") =
        .error (.valueError (unpack_message (py_split (Char.ofNat 32) (py_strip "a b c")).length)) ∧
      raises_lease_parse_error (parse_lease (.str "a b c")) = false :=
  parse_lease_fieldcount_value_error "a b c" (by decide) (by decide)

/-- C4: On a five-token line, an IP or MAC token that fails to parse yields
the `LeaseParseError` of the `AddressFormat` classification; valid IP and
MAC with an unparsable expiry token yields the `LeaseParseError` of the
`Timestamp` classification; and no error is of both classifications. -/
theorem parse_lease_error_classifications
    (line e m i hn c : String)
    (hsplit : py_split (Char.ofNat 32) (py_strip line) = [e, m, i, hn, c]) :
    ((IPAddress i = Option.none ∨ EUI m = Option.none) →
        parse_lease (.str line) =
            .error (.leaseParseError ("Unable to parse IP or Mac address in " ++ line)) ∧
          is_address_format_error
            (.leaseParseError ("Unable to parse IP or Mac address in " ++ line)) = true) ∧
      (∀ ip mac, IPAddress i = some ip → EUI m = some mac →
        arrow_get e = Option.none →
        parse_lease (.str line) =
            .error (.leaseParseError "Unable to parse lease expiry time") ∧
          is_timestamp_error
            (.leaseParseError "Unable to parse lease expiry time") = true) ∧
      (∀ err : PyError,
        ¬(is_address_format_error err = true ∧ is_timestamp_error err = true)) := by
  have key : ∀ t : List Char,
      starts_with address_error_marker.data
        (("Unable to parse IP or Mac address in ").data ++ t) = true := by
    intro t
    have hsplit37 : ("Unable to parse IP or Mac address in ").data =
        address_error_marker.data ++ (" in ").data := by decide
    rw [hsplit37, List.append_assoc]
    exact starts_with_append _ _
  have hmarker : is_address_format_error
      (.leaseParseError ("Unable to parse IP or Mac address in " ++ line)) = true := by
    simp only [is_address_format_error, String.data_append]
    exact key line.data
  refine ⟨fun haddr => ?_, fun ip mac hip hmac hts => ?_, fun err => ?_⟩
  · exact ⟨parse_lease_addr_error_eq line e m i hn c hsplit haddr, hmarker⟩
  · exact ⟨parse_lease_ts_error_eq line e m i hn c ip mac hsplit hip hmac hts, by rfl⟩
  · rintro ⟨ha, ht⟩
    cases err with
    | valueError msg => exact absurd ha (by simp [is_address_format_error])
    | leaseParseError msg =>
        have hm : msg = "Unable to parse lease expiry time" := by
          simpa [is_timestamp_error] using ht
        rw [hm] at ha
        exact absurd ha (by decide)

/-- Witness for C4: a bad-MAC line reports the address classification and a
bad-expiry line reports the timestamp classification. -/
theorem parse_lease_error_classifications_witness :
    (parse_lease (.str "1535916991 aa:bb:cc:dd:ee:zz 1.1.1.1 * *") =
        .error (.leaseParseError
          ("Unable to parse IP or Mac address in " ++
            "1535916991 aa:bb:cc:dd:ee:zz 1.1.1.1 * *"))) ∧
      (parse_lease (.str "not-an-integer aa:bb:cc:dd:ee:ff 1.1.1.1 * *") =
        .error (.leaseParseError "Unable to parse lease expiry time")) := by
  constructor
  · exact ((parse_lease_error_classifications
      "1535916991 aa:bb:cc:dd:ee:zz 1.1.1.1 * *"
      "1535916991" "aa:bb:cc:dd:ee:zz" "1.1.1.1" "*" "*" (by decide)).1
      (Or.inr (by decide))).1
  · exact ((parse_lease_error_classifications
      "not-an-integer aa:bb:cc:dd:ee:ff 1.1.1.1 * *"
      "not-an-integer" "aa:bb:cc:dd:ee:ff" "1.1.1.1" "*" "*" (by decide)).2.1
      ⟨16843009⟩ ⟨0xaabbccddeeff⟩ (by decide) (by decide) (by decide)).1

/-- C5: Checks run in the order field count, address parsing, timestamp
parsing; on a five-token line where an address token and the expiry token
are both unparsable, the reported error is the address error, never the
timestamp error. -/
theorem parse_lease_check_order
    (line e m i hn c : String)
    (hsplit : py_split (Char.ofNat 32) (py_strip line) = [e, m, i, hn, c])
    (haddr : IPAddress i = Option.none ∨ EUI m = Option.none)
    (_hts : arrow_get e = Option.none) :
    parse_lease (.str line) =
        .error (.leaseParseError ("Unable to parse IP or Mac address in " ++ line)) ∧
      parse_lease (.str line) ≠
        .error (.leaseParseError "Unable to parse lease expiry time") := by
  have h₁ := parse_lease_addr_error_eq line e m i hn c hsplit haddr
  refine ⟨h₁, ?_⟩
  rw [h₁]
  intro hcontra
  have hmsg : ("Unable to parse IP or Mac address in " ++ line) =
      "Unable to parse lease expiry time" := by
    simpa using hcontra
  exact addr_msg_ne_ts_msg line hmsg

/-- Witness for C5 at a line whose MAC, IP and expiry tokens are all
unparsable. -/
theorem parse_lease_check_order_witness :
    parse_lease (.str "not-an-integer zz:zz:zz:zz:zz:zz 1.2.3.a x y") =
        .error (.leaseParseError
          ("Unable to parse IP or Mac address in " ++
            "not-an-integer zz:zz:zz:zz:zz:zz 1.2.3.a x y")) ∧
      parse_lease (.str "not-an-integer zz:zz:zz:zz:zz:zz 1.2.3.a x y") ≠
        .error (.leaseParseError "Unable to parse lease expiry time") :=
  parse_lease_check_order "not-an-integer zz:zz:zz:zz:zz:zz 1.2.3.a x y"
    "not-an-integer" "zz:zz:zz:zz:zz:zz" "1.2.3.a" "x" "y"
    (by decide) (Or.inl (by decide)) (by decide)

/-- The two fixed default lease-file locations in `get_lease_file`
(`backend/lease_parser.py`), in source order. -/
def default_lease_files : List String :=
  ["/var/lib/misc/dnsmasq.leases", "/etc/dnsmasq.d/dnsmasq.leases"]

/-- The candidate list `get_lease_file` builds: the defaults, with the
caller-supplied path inserted at the front when
`path and isinstance(path, str)` holds. -/
def files_to_try (path : PyVal) : List String :=
  match path with
  | .str s => if s = "" then default_lease_files else s :: default_lease_files
  | _ => default_lease_files

/-- The loop body of `get_lease_file`: try each candidate in order; a
candidate whose open or read fails (`IOError`, modelled by the filesystem
returning `none`) is skipped and the next is tried; the first success
returns that file's `readlines()` list unchanged; exhaustion raises the
bare `LeaseParseError`. -/
def open_first (fs : String → Option (List String)) :
    List String → Except PyError (List String)
  | [] => .error (.leaseParseError "")
  | f :: rest =>
    match fs f with
    | some file_contents => .ok file_contents
    | Option.none => open_first fs rest

/-- `get_lease_file` (`backend/lease_parser.py`), over an explicit
filesystem map from path to the `readlines()` result of a readable file
(`none` for a path that fails to open or read). -/
def get_lease_file (fs : String → Option (List String)) (path : PyVal) :
    Except PyError (List String) :=
  open_first fs (files_to_try path)

/-- C6: `get_lease_file` tries the caller-supplied path first, then the two
default paths in order; the first candidate the filesystem can deliver wins
and its lines are returned exactly as read, unmutated and unfiltered. -/
theorem get_lease_file_order
    (fs : String → Option (List String)) (p : String) (hp : p ≠ "") :
    files_to_try (.str p) = p :: default_lease_files ∧
      default_lease_files =
        ["/var/lib/misc/dnsmasq.leases", "/etc/dnsmasq.d/dnsmasq.leases"] ∧
      (∀ ls, fs p = some ls → get_lease_file fs (.str p) = .ok ls) ∧
      (∀ ls, fs p = Option.none →
        fs "/var/lib/misc/dnsmasq.leases" = some ls →
        get_lease_file fs (.str p) = .ok ls) ∧
      (∀ ls, fs p = Option.none →
        fs "/var/lib/misc/dnsmasq.leases" = Option.none →
        fs "/etc/dnsmasq.d/dnsmasq.leases" = some ls →
        get_lease_file fs (.str p) = .ok ls) := by
  refine ⟨by simp [files_to_try, hp], rfl, ?_, ?_, ?_⟩
  · intro ls h₁
    simp [get_lease_file, files_to_try, hp, open_first, h₁]
  · intro ls h₁ h₂
    simp [get_lease_file, files_to_try, hp, open_first, h₁, h₂, default_lease_files]
  · intro ls h₁ h₂ h₃
    simp [get_lease_file, files_to_try, hp, open_first, h₁, h₂, h₃, default_lease_files]

/-- Witness for C6: with only the supplied path readable, its lines come
back as-is; with it unreadable, the first default wins. -/
theorem get_lease_file_order_witness :
    get_lease_file
        (fun f => if f = "/custom/leases" then some ["a b c d e\n", "f g h i j\n"] else Option.none)
        (.str "/custom/leases") = .ok ["a b c d e\n", "f g h i j\n"] ∧
      get_lease_file
        (fun f => if f = "/var/lib/misc/dnsmasq.leases" then some ["x\n"] else Option.none)
        (.str "/custom/leases") = .ok ["x\n"] :=
  ⟨(get_lease_file_order
      (fun f => if f = "/custom/leases" then some ["a b c d e\n", "f g h i j\n"] else Option.none)
      "/custom/leases" (by decide)).2.2.1 ["a b c d e\n", "f g h i j\n"] (by simp),
   (get_lease_file_order
      (fun f => if f = "/var/lib/misc/dnsmasq.leases" then some ["x\n"] else Option.none)
      "/custom/leases" (by decide)).2.2.2.1 ["x\n"] (by simp) (by simp)⟩

/-- C7 counterexample: when no candidate is readable, `get_lease_file`
raises the bare `LeaseParseError` — an error of the very `LeaseParseError`
class that carries the parse errors, not a classification distinct from
it. -/
theorem get_lease_file_error_class_counterexample :
    get_lease_file (fun _ => Option.none) PyVal.none =
        .error (.leaseParseError "") ∧
      (PyError.leaseParseError "").isLeaseParseClass = true ∧
      raises_lease_parse_error
        (parse_lease (.str "not-an-integer aa:bb:cc:dd:ee:ff 1.1.1.1 * *")) = true :=
  ⟨rfl, rfl, by decide⟩

/-- C7 amended: if every candidate path fails to open or read,
`get_lease_file` fails with the bare `LeaseParseError` — the same exception
class the parser uses, distinguishable only by its empty message, not a
separately classified `SourceUnavailable` error — it never returns lines,
and each failed candidate is skipped silently in favour of the next. -/
theorem get_lease_file_all_fail
    (fs : String → Option (List String)) (path : PyVal)
    (hall : ∀ f ∈ files_to_try path, fs f = Option.none) :
    get_lease_file fs path = .error (.leaseParseError "") ∧
      (PyError.leaseParseError "").isLeaseParseClass = true ∧
      ∀ ls, get_lease_file fs path ≠ .ok ls := by
  have go : ∀ l : List String, (∀ f ∈ l, fs f = Option.none) →
      open_first fs l = .error (.leaseParseError "") := by
    intro l
    induction l with
    | nil => intro _; rfl
    | cons f rest ih =>
        intro h
        have hf : fs f = Option.none := h f (by simp)
        have hrest : ∀ g ∈ rest, fs g = Option.none := fun g hg => h g (by simp [hg])
        simp [open_first, hf, ih hrest]
  have h₁ : get_lease_file fs path = .error (.leaseParseError "") :=
    go (files_to_try path) hall
  exact ⟨h₁, rfl, fun ls h => by rw [h₁] at h; exact Except.noConfusion h⟩

/-- Witness for the amended C7: a filesystem with nothing readable. -/
theorem get_lease_file_all_fail_witness :
    get_lease_file (fun _ => Option.none) (.str "/custom/leases") =
        .error (.leaseParseError "") ∧
      (PyError.leaseParseError "").isLeaseParseClass = true ∧
      ∀ ls, get_lease_file (fun _ => Option.none) (.str "/custom/leases") ≠ .ok ls :=
  get_lease_file_all_fail (fun _ => Option.none) (.str "/custom/leases")
    (fun _ _ => rfl)

/-- C10: a falsy supplied path — the empty string, `None`, or any other
falsy value — is never inserted as a candidate: only the two default paths
are tried, in order, exactly as with no supplied path. -/
theorem get_lease_file_falsy_path
    (fs : String → Option (List String)) (v : PyVal) (hv : v.truthy = false) :
    files_to_try v = default_lease_files ∧
      get_lease_file fs v = get_lease_file fs PyVal.none := by
  have h : files_to_try v = default_lease_files := by
    cases v with
    | none => rfl
    | int n => rfl
    | str s =>
        have hs : s = "" := by
          by_contra hne
          simp [PyVal.truthy, hne] at hv
        rw [hs]
        simp [files_to_try]
  exact ⟨h, by rw [get_lease_file, h]; rfl⟩

/-- Witness for C10 at the empty-string path. -/
theorem get_lease_file_falsy_path_witness :
    files_to_try (.str "") = default_lease_files ∧
      get_lease_file (fun _ => Option.none) (.str "") =
        get_lease_file (fun _ => Option.none) PyVal.none :=
  get_lease_file_falsy_path (fun _ => Option.none) (.str "") (by decide)

/-- Decimal rendering of one IPv4 octet, then of the dotted quad:
`str(netaddr.IPAddress)` for version 4. -/
def ip_str (a : IPAddr) : String :=
  toString (a.value / 16777216 % 256) ++ "." ++
  toString (a.value / 65536 % 256) ++ "." ++
  toString (a.value / 256 % 256) ++ "." ++
  toString (a.value % 256)

/-- Uppercase hex digit character for a value below 16. -/
def hex_digit_char (n : Nat) : Char :=
  if n < 10 then Char.ofNat (48 + n) else Char.ofNat (55 + n)

/-- Two-digit uppercase hex rendering of one octet. -/
def hex_pair (b : Nat) : String :=
  String.mk [hex_digit_char (b / 16 % 16), hex_digit_char (b % 16)]

/-- `str(netaddr.EUI)`: the library's canonical `mac_eui48` dialect,
uppercase hyphen-separated octet pairs. -/
def eui_str (m : MacAddr) : String :=
  hex_pair (m.value / 1099511627776 % 256) ++ "-" ++
  hex_pair (m.value / 4294967296 % 256) ++ "-" ++
  hex_pair (m.value / 16777216 % 256) ++ "-" ++
  hex_pair (m.value / 65536 % 256) ++ "-" ++
  hex_pair (m.value / 256 % 256) ++ "-" ++
  hex_pair (m.value % 256)

/-- Two-digit zero-padded decimal rendering. -/
def pad2 (n : Nat) : String :=
  if n < 10 then "0" ++ toString n else toString n

/-- Proleptic-Gregorian civil date from a day count since 1970-01-01
(the standard era-based conversion), as `(year, month, day)`. -/
def civil_from_days (z0 : Nat) : Nat × Nat × Nat :=
  let z := z0 + 719468
  let era := z / 146097
  let doe := z % 146097
  let yoe := (doe - doe / 1460 + doe / 36524 - doe / 146097) / 365
  let y := yoe + era * 400
  let doy := doe - (365 * yoe + yoe / 4 - yoe / 100)
  let mp := (5 * doy + 2) / 153
  let d := doy - (153 * mp + 2) / 5 + 1
  let m := if mp < 10 then mp + 3 else mp - 9
  (if m ≤ 2 then y + 1 else y, m, d)

/-- `str(arrow.Arrow)`: the ISO-8601 UTC rendering
`YYYY-MM-DDTHH:MM:SS+00:00` of the epoch instant. -/
def arrow_str (t : ArrowTime) : String :=
  let days := t.epoch / 86400
  let secs := t.epoch % 86400
  let ymd := civil_from_days days
  toString ymd.1 ++ "-" ++ pad2 ymd.2.1 ++ "-" ++ pad2 ymd.2.2 ++ "T" ++
  pad2 (secs / 3600) ++ ":" ++ pad2 (secs % 3600 / 60) ++ ":" ++
  pad2 (secs % 60) ++ "+00:00"

/-- `LeaseRecord.serialise` (`backend/validators.py`): the JSON-able
projection, a string-to-string mapping with the five fields in the source's
`dict(...)` order, each value rendered with `str(...)` and the two plain
string fields passed through. -/
def LeaseRecord.serialise (r : LeaseRecord) : List (String × String) :=
  [("ip_address", ip_str r.ip_address),
   ("mac_address", eui_str r.mac_address),
   ("lease_expiry_time", arrow_str r.lease_expiry_time),
   ("client_id", r.client_id),
   ("hostname", r.hostname)]

/-- C8: For every canonical well-formed line, `serialise` of the parsed
record is a mapping with exactly the five string-valued keys `ip_address`,
`mac_address`, `lease_expiry_time`, `client_id` and `hostname`, whose IP
and MAC values are the address library's canonical rendering of the parsed
input tokens. -/
theorem serialise_parse_round_trip
    (line e m i hn c : String) (ip : IPAddr) (mac : MacAddr) (t : ArrowTime)
    (hsplit : py_split (Char.ofNat 32) (py_strip line) = [e, m, i, hn, c])
    (hip : IPAddress i = some ip) (hmac : EUI m = some mac)
    (ht : arrow_get e = some t) :
    ∃ r, parse_lease (.str line) = .ok r ∧
      r.serialise.map Prod.fst =
        ["ip_address", "mac_address", "lease_expiry_time", "client_id", "hostname"] ∧
      r.serialise =
        [("ip_address", ip_str ip),
         ("mac_address", eui_str mac),
         ("lease_expiry_time", arrow_str t),
         ("client_id", if c = "*" then "" else c),
         ("hostname", if hn = "*" then "" else hn)] := by
  refine ⟨_, parse_lease_ok_eq line e m i hn c ip mac t hsplit hip hmac ht, ?_, rfl⟩
  rfl

/-- Witness for C8 at the specification's literal scenario: the serialised
mapping reproduces the IP token verbatim and the MAC token in the library's
canonical uppercase hyphen form. -/
theorem serialise_parse_round_trip_witness :
    ∃ r, parse_lease (.str canonical_line) = .ok r ∧
      r.serialise.map Prod.fst =
        ["ip_address", "mac_address", "lease_expiry_time", "client_id", "hostname"] ∧
      r.serialise =
        [("ip_address", ip_str ⟨2886730044⟩),
         ("mac_address", eui_str ⟨187723572702975⟩),
         ("lease_expiry_time", arrow_str ⟨1535916991⟩),
         ("client_id", if "01:aa:bb:cc:dd:ee:ff" = "*" then "" else "01:aa:bb:cc:dd:ee:ff"),
         ("hostname", if "android-2bfa2b2619add6eb" = "*" then "" else "android-2bfa2b2619add6eb")] :=
  serialise_parse_round_trip canonical_line
    "1535916991" "aa:bb:cc:dd:ee:ff" "172.16.1.60"
    "android-2bfa2b2619add6eb" "01:aa:bb:cc:dd:ee:ff"
    ⟨2886730044⟩ ⟨187723572702975⟩ ⟨1535916991⟩
    (by decide) (by decide) (by decide) (by decide)

/-- The canonical serialised IP and MAC texts at the literal scenario:
the IP reproduces the token, the MAC is the token case/format-normalised. -/
theorem serialise_canonical_values :
    ip_str ⟨2886730044⟩ = "172.16.1.60" ∧
      eui_str ⟨187723572702975⟩ = "AA-BB-CC-DD-EE-FF" ∧
      arrow_str ⟨1535916991⟩ = "2018-09-02T19:36:31+00:00" := by
  exact ⟨rfl, rfl, rfl⟩

/-- Python `repr` of a plain string without quote characters, as it appears
inside a printed list. -/
def py_str_repr (s : String) : String :=
  "\x27" ++ s ++ "\x27"

/-- Python `repr` of a list of plain strings, as `print` renders
`lease_line.split(' ')`. -/
def py_list_repr (xs : List String) : String :=
  "[" ++ String.intercalate ", " (xs.map py_str_repr) ++ "]"

/-- The diagnostic text `parse_lease` prints:
`'Processing: {},\n{}'.format(lease_line, lease_line.split(' '))`. -/
def processing_message (s : String) : String :=
  "Processing: " ++ s ++ ",\n" ++ py_list_repr (py_split (Char.ofNat 32) s)

/-- What `parse_lease` writes to stdout: nothing when the precondition
guard raises first, otherwise the one diagnostic `print` before
unpacking. -/
def parse_lease_stdout (lease_line : PyVal) : List String :=
  match lease_line with
  | .str s => if s = "" then [] else [processing_message s]
  | _ => []

/-- C9 counterexample: `parse_lease` is not free of side effects — at the
specification's own literal scenario the call writes a diagnostic line to
stdout. -/
theorem parse_lease_stdout_counterexample :
    parse_lease_stdout (.str canonical_line) =
        [processing_message canonical_line] ∧
      parse_lease_stdout (.str canonical_line) ≠ [] :=
  ⟨rfl, by decide⟩

/-- C9 amended: every record `parse_lease` returns is constructed fresh
from the five tokens of the input line alone — so the input line fully
determines the record and equal lines yield equal records — and the only
side effect is the diagnostic `print`: each call on a non-empty string
writes exactly one processing line to stdout. -/
theorem parse_lease_fresh_deterministic (s : String) (r : LeaseRecord)
    (hok : parse_lease (.str s) = .ok r) :
    (∃ e m i hn c ip mac t,
      py_split (Char.ofNat 32) (py_strip s) = [e, m, i, hn, c] ∧
      IPAddress i = some ip ∧ EUI m = some mac ∧ arrow_get e = some t ∧
      r = { ip_address := ip
            mac_address := mac
            lease_expiry_time := t
            client_id := if c = "*" then "" else c
            hostname := if hn = "*" then "" else hn }) ∧
      parse_lease_stdout (.str s) = [processing_message s] := by
  have hs : s ≠ "" := by
    intro h
    rw [h] at hok
    exact Except.noConfusion (hok.symm.trans (by rfl : parse_lease (.str "") = .error (.valueError "Must provide a string input")).symm)
  constructor
  · simp only [parse_lease, if_neg hs] at hok
    split at hok
    · next e m i hn c heq =>
        split at hok
        · exact Except.noConfusion hok
        · next ip hip =>
            split at hok
            · exact Except.noConfusion hok
            · next mac hmac =>
                split at hok
                · exact Except.noConfusion hok
                · next t ht =>
                    exact ⟨e, m, i, hn, c, ip, mac, t, heq, hip, hmac, ht,
                      (Except.ok.inj hok).symm⟩
    · exact Except.noConfusion hok
  · simp only [parse_lease_stdout, if_neg hs]

/-- Witness for the amended C9 at the literal scenario line. -/
theorem parse_lease_fresh_deterministic_witness :
    (∃ e m i hn c ip mac t,
      py_split (Char.ofNat 32) (py_strip canonical_line) = [e, m, i, hn, c] ∧
      IPAddress i = some ip ∧ EUI m = some mac ∧ arrow_get e = some t ∧
      ({ ip_address := ⟨2886730044⟩
         mac_address := ⟨187723572702975⟩
         lease_expiry_time := ⟨1535916991⟩
         client_id := "01:aa:bb:cc:dd:ee:ff"
         hostname := "android-2bfa2b2619add6eb" } : LeaseRecord) =
        { ip_address := ip
          mac_address := mac
          lease_expiry_time := t
          client_id := if c = "*" then "" else c
          hostname := if hn = "*" then "" else hn }) ∧
      parse_lease_stdout (.str canonical_line) = [processing_message canonical_line] :=
  parse_lease_fresh_deterministic canonical_line
    { ip_address := ⟨2886730044⟩
      mac_address := ⟨187723572702975⟩
      lease_expiry_time := ⟨1535916991⟩
      client_id := "01:aa:bb:cc:dd:ee:ff"
      hostname := "android-2bfa2b2619add6eb" }
    (by rfl)
